import Mathlib

/-!
Verification development for the `code-on-incus` session-lifecycle and
network-policy orchestrator.  Pure helpers (container-name derivation) are
embedded from `tests/support/helpers.py`; the orchestrator itself (the Go
binary exercised by the integration tests) is modelled from the spec where
its source is not available.
-/

namespace Coi

/-! ### SHA-256 (pure, on byte lists; words are `Nat` reduced mod 2^32) -/

/-- Truncate to a 32-bit word. -/
def w32 (n : Nat) : Nat := n % 4294967296

/-- Bitwise NOT on a 32-bit word (all 32 bits flip: `2^32 - 1 - x` for `x < 2^32`). -/
def wnot (x : Nat) : Nat := 4294967295 - w32 x

/-- Right rotation of a 32-bit word by `n` places. -/
def rotr (x n : Nat) : Nat := w32 ((x >>> n) ||| (x <<< (32 - n)))

/-- SHA-256 round constants (FIPS 180-4), written in decimal. -/
def sha256K : List Nat :=
  [1116352408, 1899447441, 3049323471, 3921009573, 961987163,
   1508970993, 2453635748, 2870763221, 3624381080, 310598401,
   607225278, 1426881987, 1925078388, 2162078206, 2614888103,
   3248222580, 3835390401, 4022224774, 264347078, 604807628,
   770255983, 1249150122, 1555081692, 1996064986, 2554220882,
   2821834349, 2952996808, 3210313671, 3336571891, 3584528711,
   113926993, 338241895, 666307205, 773529912, 1294757372,
   1396182291, 1695183700, 1986661051, 2177026350, 2456956037,
   2730485921, 2820302411, 3259730800, 3345764771, 3516065817,
   3600352804, 4094571909, 275423344, 430227734, 506948616,
   659060556, 883997877, 958139571, 1322822218, 1537002063,
   1747873779, 1955562222, 2024104815, 2227730452, 2361852424,
   2428436474, 2756734187, 3204031479, 3329325298]

/-- SHA-256 initial hash value (FIPS 180-4), written in decimal. -/
def sha256H0 : List Nat :=
  [1779033703, 3144134277, 1013904242, 2773480762, 1359893119,
   2600822924, 528734635, 1541459225]

def bigSigma0 (x : Nat) : Nat := (rotr x 2) ^^^ (rotr x 13) ^^^ (rotr x 22)
def bigSigma1 (x : Nat) : Nat := (rotr x 6) ^^^ (rotr x 11) ^^^ (rotr x 25)
def smallSigma0 (x : Nat) : Nat := (rotr x 7) ^^^ (rotr x 18) ^^^ (x >>> 3)
def smallSigma1 (x : Nat) : Nat := (rotr x 17) ^^^ (rotr x 19) ^^^ (x >>> 10)

/-- Pack four big-endian bytes into one 32-bit word, walking the byte list. -/
def bytesToWords : List Nat → List Nat
  | b0 :: b1 :: b2 :: b3 :: rest =>
      (b0 * 16777216 + b1 * 65536 + b2 * 256 + b3) :: bytesToWords rest
  | _ => []

/-- Extend the (reversed) message schedule by `k` further words.
The freshest word sits at the head, so `W[i-2]` is entry 1, `W[i-7]` entry 6,
`W[i-15]` entry 14 and `W[i-16]` entry 15. -/
def extendW : Nat → List Nat → List Nat
  | 0, acc => acc
  | k + 1, acc =>
      extendW k
        (w32 (smallSigma1 (acc.getD 1 0) + acc.getD 6 0 +
              smallSigma0 (acc.getD 14 0) + acc.getD 15 0) :: acc)

/-- One compression round. State is `[a,b,c,d,e,f,g,h]`; `kw = K[i] + W[i]`. -/
def sha256Round (st : List Nat) (kw : Nat) : List Nat :=
  match st with
  | [a, b, c, d, e, f, g, h] =>
      let ch := (e &&& f) ^^^ ((wnot e) &&& g)
      let maj := (a &&& b) ^^^ (a &&& c) ^^^ (b &&& c)
      let t1 := w32 (h + bigSigma1 e + ch + kw)
      let t2 := w32 (bigSigma0 a + maj)
      [w32 (t1 + t2), a, b, c, w32 (d + t1), e, f, g]
  | other => other

/-- Compress one 64-byte block into the running hash (8 words). -/
def sha256Compress (h : List Nat) (block : List Nat) : List Nat :=
  let w16 := bytesToWords block
  let w := (extendW 48 w16.reverse).reverse
  let kw := (List.zip sha256K w).map (fun p => w32 (p.1 + p.2))
  let st := kw.foldl sha256Round h
  (List.zip h st).map (fun p => w32 (p.1 + p.2))

/-- Split a byte list into 64-byte blocks (structural recursion on a fuel
bounded by the list length, so the kernel can evaluate it). -/
def toBlocksFuel : Nat → List Nat → List (List Nat)
  | 0, _ => []
  | _ + 1, [] => []
  | n + 1, l => l.take 64 :: toBlocksFuel n (l.drop 64)

/-- Split a byte list into 64-byte blocks. -/
def toBlocks (l : List Nat) : List (List Nat) := toBlocksFuel l.length l

/-- Big-endian bytes (8 of them) of a length-in-bits value. -/
def lenBytes (bits : Nat) : List Nat :=
  [bits / 72057594037927936 % 256, bits / 281474976710656 % 256,
   bits / 1099511627776 % 256, bits / 4294967296 % 256,
   bits / 16777216 % 256, bits / 65536 % 256, bits / 256 % 256, bits % 256]

/-- SHA-256 padding: append `0x80`, zeros to 56 mod 64, then the 64-bit bit length. -/
def sha256Pad (msg : List Nat) : List Nat :=
  let len := msg.length
  let zeros := (64 + 56 - (len + 1) % 64) % 64
  msg ++ [128] ++ List.replicate zeros 0 ++ lenBytes (8 * len)

/-- SHA-256 of a byte list, as the list of eight 32-bit hash words. -/
def sha256Words (msg : List Nat) : List Nat :=
  (toBlocks (sha256Pad msg)).foldl sha256Compress sha256H0

/-- Lower-case hex digit for a nibble. -/
def hexChar (n : Nat) : Char :=
  if n < 10 then Char.ofNat (48 + n) else Char.ofNat (87 + n)

/-- Eight lower-case hex characters of a 32-bit word, most significant first. -/
def wordHex (x : Nat) : List Char :=
  [hexChar (x / 268435456 % 16), hexChar (x / 16777216 % 16),
   hexChar (x / 1048576 % 16), hexChar (x / 65536 % 16),
   hexChar (x / 4096 % 16), hexChar (x / 256 % 16),
   hexChar (x / 16 % 16), hexChar (x % 16)]

/-- UTF-8 encoding of a single code point. -/
def utf8Bytes (c : Nat) : List Nat :=
  if c < 128 then [c]
  else if c < 2048 then [192 + c / 64, 128 + c % 64]
  else if c < 65536 then [224 + c / 4096, 128 + c / 64 % 64, 128 + c % 64]
  else [240 + c / 262144, 128 + c / 4096 % 64, 128 + c / 64 % 64, 128 + c % 64]

/-- UTF-8 bytes of a string. -/
def strBytes (s : String) : List Nat := s.data.flatMap (fun c => utf8Bytes c.toNat)

/-- Lower-case hex SHA-256 digest of a string (64 characters),
mirroring Python's `hashlib.sha256(s.encode()).digest().hex()`. -/
def sha256hex (s : String) : String :=
  ⟨(sha256Words (strBytes s)).flatMap wordHex⟩

/-! ### Decimal rendering of a natural number (Python's `f-string` of an int) -/

/-- The decimal digit character for `d < 10`. -/
def decDigit (d : Nat) : Char := Char.ofNat (48 + d)

/-- Decimal digit characters of `n`, most significant first; the fuel (any
bound above the number itself) keeps the recursion structural so the kernel
can evaluate it. -/
def decCharsFuel : Nat → Nat → List Char
  | 0, _ => []
  | f + 1, n => if n < 10 then [decDigit n] else decCharsFuel f (n / 10) ++ [decDigit (n % 10)]

/-- Decimal digit characters of `n`. -/
def decChars (n : Nat) : List Char := decCharsFuel (n + 1) n

/-- Decimal rendering of a natural number, as Python renders a nonnegative int. -/
def natToDec (n : Nat) : String := ⟨decChars n⟩

/-- Reading decimal digit characters back into a number. -/
def decVal (l : List Char) : Nat := l.foldl (fun acc c => 10 * acc + (c.toNat - 48)) 0

theorem decDigit_toNat {d : Nat} (h : d < 10) : (decDigit d).toNat = 48 + d := by
  interval_cases d <;> rfl

theorem decCharsFuel_foldl (f : Nat) : ∀ n a, n < f →
    (decCharsFuel f n).foldl (fun acc c => 10 * acc + (c.toNat - 48)) a =
      a * 10 ^ (decCharsFuel f n).length + n := by
  induction f with
  | zero => intro n a h; omega
  | succ f ih =>
    intro n a h
    by_cases h10 : n < 10
    · simp [decCharsFuel, h10, decDigit_toNat h10]; ring
    · have hdiv : n / 10 < f := by omega
      simp only [decCharsFuel, if_neg h10, List.foldl_append, List.length_append,
        List.foldl_cons, List.foldl_nil, List.length_cons, List.length_nil]
      rw [ih (n / 10) a hdiv]
      have hm : n % 10 < 10 := Nat.mod_lt _ (by norm_num)
      rw [decDigit_toNat hm]
      have : 48 + n % 10 - 48 = n % 10 := by omega
      rw [this, pow_succ]
      have : n = 10 * (n / 10) + n % 10 := (Nat.div_add_mod n 10).symm
      ring_nf
      omega

/-- Decimal rendering round-trips: reading the digits of `n` gives back `n`. -/
theorem decVal_decChars (n : Nat) : decVal (decChars n) = n := by
  have := decCharsFuel_foldl (n + 1) n 0 (Nat.lt_succ_self n)
  simpa [decVal, decChars] using this

/-- Decimal rendering is injective. -/
theorem decChars_injective {m n : Nat} (h : decChars m = decChars n) : m = n := by
  have hm := decVal_decChars m
  have hn := decVal_decChars n
  rw [h] at hm
  omega

/-- The decimal rendering of a number is never the empty character list. -/
theorem decChars_ne_nil (n : Nat) : decChars n ≠ [] := by
  unfold decChars decCharsFuel
  by_cases h10 : n < 10 <;> simp [h10]

/-! ### Container-name derivation
Embedded from `tests/support/helpers.py`, `calculate_container_name`
(which the test suite states replicates `internal/session/naming.go`).
The environment lookup (`os.environ.get`) and the filesystem path
canonicalisation (`Path(...).resolve()`) are I/O, so they enter the
embedding as explicit function parameters `env` and `resolve`. -/

def calculate_container_name (env : String → Option String) (resolve : String → String)
    (workspace_dir : String) (slot : Nat) : String :=
  let pfx := (env "COI_CONTAINER_PREFIX").getD "coi-"
  let workspace_path := resolve workspace_dir
  let workspace_id := (sha256hex workspace_path).take 8
  pfx ++ workspace_id ++ "-" ++ natToDec slot

/-- Left-cancellation for string append. -/
theorem string_append_cancel {a b c : String} (h : a ++ b = a ++ c) : b = c := by
  apply String.ext
  have := congrArg String.data h
  simpa [String.data_append] using this

/-- The decimal rendering function is injective. -/
theorem natToDec_injective {m n : Nat} (h : natToDec m = natToDec n) : m = n := by
  apply decChars_injective
  simpa [natToDec] using congrArg String.data h

/-! ### Network modes, ACL names and observable messages -/

/-- Modelled from the spec: §4.3 lists the isolation modes of the missing
network-policy engine: open, restricted, allowlist. -/
inductive NetMode
  | openNet
  | restricted
  | allowlist
deriving DecidableEq, Repr

/-- CLI spelling of a network mode. -/
def NetMode.str : NetMode → String
  | .openNet => "open"
  | .restricted => "restricted"
  | .allowlist => "allowlist"

/-- ACL naming, as asserted by the cleanup tests: the ACL attached to a
container is named coi- ++ container ++ - ++ mode. -/
def aclNameFor (container : String) (m : NetMode) : String :=
  "coi-" ++ container ++ "-" ++ m.str

/-- Observable output lines of the orchestrator, abstracted from the strings
the integration tests grep for. -/
inductive Msg
  | savingSession
  | containerKept
  | containerKeptRunning (c : String)
  | containerDeleteFailed (c : String)
  | aclRemoved (acl : String)
  | aclDeleteWarning (acl : String)
deriving DecidableEq, Repr

/-- The string each message renders to in the CLI output, from the phrases
the tests assert on. -/
def Msg.render : Msg → String
  | .savingSession => "Saving session data"
  | .containerKept => "Container kept (persistent mode)"
  | .containerKeptRunning c => "Container kept running: " ++ c
  | .containerDeleteFailed c => "failed to delete container " ++ c
  | .aclRemoved a => "Network ACL " ++ a ++ " removed"
  | .aclDeleteWarning a => "Warning: failed to delete network ACL " ++ a

/-- The daemon-side world the orchestrator manipulates: which containers
exist, which are running, which are protected from deletion
(security.protection.delete), and which network ACLs exist. -/
structure DaemonState where
  containers : List String
  running : List String
  deleteProtected : List String
  acls : List String
deriving DecidableEq, Repr

/-! ### Cleanup Orchestrator -/

/-- Modelled from the spec: the ACL-teardown step (§4.3) of the missing
internal/session/cleanup.go.  Deleting an ACL still attached to an existing
container's network device fails and surfaces the
"failed to delete network ACL" warning; deleting a detached ACL removes it
and reports the removal. -/
def deleteACL (st : DaemonState) (c : String) (m : NetMode) : DaemonState × List Msg :=
  let acl := aclNameFor c m
  if st.containers.contains c then (st, [.aclDeleteWarning acl])
  else if st.acls.contains acl then
    ({ st with acls := st.acls.filter (· != acl) }, [.aclRemoved acl])
  else (st, [])

/-- Modelled from the spec: the Cleanup Orchestrator (§4.6) of the missing
internal/session/cleanup.go.  Sequence: save session data; if persistent,
stop (never delete) the container and report it kept; if ephemeral, attempt
container deletion and only on success proceed to network-policy teardown —
on failure report it and leave container and ACL intact.  The returned Bool
is the run's success. -/
def cleanup (persistent : Bool) (mode : NetMode) (c : String) (st : DaemonState) :
    DaemonState × List Msg × Bool :=
  let head := [Msg.savingSession]
  if persistent then
    ({ st with running := st.running.filter (· != c) }, head ++ [.containerKept], true)
  else if st.containers.contains c && !(st.deleteProtected.contains c) then
    let st1 : DaemonState :=
      { st with containers := st.containers.filter (· != c),
                running := st.running.filter (· != c) }
    if mode = .openNet then (st1, head, true)
    else
      let r := deleteACL st1 c mode
      (r.1, head ++ r.2, true)
  else
    (st, head ++ [.containerDeleteFailed c], false)

/-! ### Session Store and Lifecycle Manager -/

/-- One stored session record (§3 Session). -/
structure Session where
  sid : String
  workspace : String
  slot : Nat
  persistent : Bool
  containerName : String
  createdAt : Nat
  lastUsed : Nat
deriving DecidableEq, Repr

/-- The durable Session Store (§4.2). -/
structure Store where
  sessions : List Session
deriving DecidableEq, Repr

/-- Load a session by id. -/
def findSession (store : Store) (id : String) : Option Session :=
  store.sessions.find? (fun s => s.sid == id)

/-- Load the most recently used session of a workspace (§4.2:
ordered by lastUsed descending). -/
def latestFor (store : Store) (w : String) : Option Session :=
  (store.sessions.filter (fun s => s.workspace == w)).foldl
    (fun best s =>
      match best with
      | none => some s
      | some b => if b.lastUsed ≤ s.lastUsed then some s else some b) none

/-- Errors of the start operation (§7 taxonomy). -/
inductive StartErr
  | noPreviousSession
  | invalidWorkspace
  | daemonUnreachable
  | networkModeUnsupported
deriving DecidableEq, Repr

/-- User-facing error message; the resume-miss test asserts the phrase
"no previous session to resume". -/
def StartErr.message : StartErr → String
  | .noPreviousSession => "no previous session to resume"
  | .invalidWorkspace => "invalid workspace"
  | .daemonUnreachable => "daemon unreachable"
  | .networkModeUnsupported => "network mode unsupported"

/-- Process exit code of a start outcome: 0 on success, nonzero on failure. -/
def exitCode : Except StartErr Session → Nat
  | .error _ => 1
  | .ok _ => 0

/-- Modelled from the spec: §4.4 step 2 — an explicit persistence flag wins
for the current run; on resume with the flag omitted the stored session's
flag is inherited; a fresh session defaults to ephemeral. -/
def resolvePersistent (explicitFlag : Option Bool) (resumed : Option Session) : Bool :=
  match explicitFlag with
  | some b => b
  | none =>
    match resumed with
    | some s => s.persistent
    | none => false

/-- Slots already used by sessions of a workspace. -/
def usedSlots (store : Store) (w : String) : List Nat :=
  (store.sessions.filter (fun s => s.workspace == w)).map (fun s => s.slot)

/-- Modelled from the spec: §4.4 step 3 — auto-allocate the lowest unused
slot for the workspace. -/
def lowestUnusedSlot (store : Store) (w : String) : Nat :=
  let used := usedSlots store w
  ((((List.range (used.length + 1)).map (· + 1)).find? (fun n => !(used.contains n))).getD 1)

/-- Modelled from the spec: idempotent ACL provisioning (§4.3) — no ACL for
open mode; otherwise create the ACL unless it already exists (provisioning
twice must not duplicate it). -/
def provisionACL (st : DaemonState) (c : String) (m : NetMode) : DaemonState :=
  match m with
  | .openNet => st
  | _ =>
    let acl := aclNameFor c m
    if st.acls.contains acl then st else { st with acls := st.acls ++ [acl] }

/-- Modelled from the spec: §4.4 steps 5-6 — reuse the container if it
already exists; otherwise provision the network policy, then create it; in
either case make sure it is running. -/
def ensureContainer (st : DaemonState) (cname : String) (m : NetMode) : DaemonState :=
  let st1 :=
    if st.containers.contains cname then st
    else
      let stp := provisionACL st cname m
      { stp with containers := stp.containers ++ [cname] }
  if st1.running.contains cname then st1
  else { st1 with running := st1.running ++ [cname] }

/-- Provisioning an ACL does not touch the container list. -/
theorem provisionACL_containers (st : DaemonState) (c : String) (m : NetMode) :
    (provisionACL st c m).containers = st.containers := by
  cases m <;> simp only [provisionACL] <;> split <;> rfl

/-- The container list after `ensureContainer`: unchanged on reuse, the new
name appended on creation. -/
theorem ensureContainer_containers (st : DaemonState) (cname : String) (m : NetMode) :
    (ensureContainer st cname m).containers =
      if st.containers.contains cname then st.containers else st.containers ++ [cname] := by
  simp only [ensureContainer]
  split <;> split <;> simp_all [provisionACL_containers]

/-- After `ensureContainer`, the container exists. -/
theorem ensureContainer_mem (st : DaemonState) (cname : String) (m : NetMode) :
    cname ∈ (ensureContainer st cname m).containers := by
  rw [ensureContainer_containers]
  split
  next h => simpa using h
  next h => simp

/-- Persistent cleanup never deletes the container. -/
theorem cleanup_persistent_containers (m : NetMode) (c : String) (st : DaemonState) :
    (cleanup true m c st).1.containers = st.containers := by
  simp [cleanup]

/-- Arguments of the shell/start command (§4.4, §6).  resumeArg: none means
no resume was requested, some none a bare resume, some (some id) an explicit
session id. -/
structure StartArgs where
  workspace : String
  slotArg : Option Nat
  persistentFlag : Option Bool
  resumeArg : Option (Option String)
  mode : NetMode
deriving DecidableEq, Repr

/-- Modelled from the spec: the Lifecycle Manager's start operation (§4.4).
Step 1 resolves the resume request — either miss fails with
noPreviousSession before any container work; step 2 resolves persistence;
step 3 the slot; step 4 derives the container identity (the deriver enters
as the parameter derive); steps 5-6 reuse an existing container or provision
network policy and create it; steps 7-8 build and persist the session record
with lastUsed set to now. -/
def start (derive : String → Nat → String) (newId : String) (now : Nat)
    (args : StartArgs) (store : Store) (st : DaemonState) :
    Except StartErr Session × Store × DaemonState :=
  let resumed0 : Except StartErr (Option Session) :=
    match args.resumeArg with
    | none => .ok none
    | some none =>
      match latestFor store args.workspace with
      | some s => .ok (some s)
      | none => .error .noPreviousSession
    | some (some id) =>
      match findSession store id with
      | some s => .ok (some s)
      | none => .error .noPreviousSession
  match resumed0 with
  | .error e => (.error e, store, st)
  | .ok resumed =>
    let pers := resolvePersistent args.persistentFlag resumed
    let slot :=
      match args.slotArg with
      | some n => n
      | none =>
        match resumed with
        | some s => s.slot
        | none => lowestUnusedSlot store args.workspace
    let cname := derive args.workspace slot
    let st2 := ensureContainer st cname args.mode
    let sess : Session :=
      match resumed with
      | some s => { s with persistent := pers, containerName := cname, lastUsed := now }
      | none =>
        { sid := newId, workspace := args.workspace, slot := slot, persistent := pers,
          containerName := cname, createdAt := now, lastUsed := now }
    let store2 : Store := { sessions := sess :: store.sessions.filter (fun s => s.sid != sess.sid) }
    (.ok sess, store2, st2)

/-! ### Network policy decisions -/

/-- An IPv4 address as four octets. -/
structure IPv4 where
  a : Nat
  b : Nat
  c : Nat
  d : Nat
deriving DecidableEq, Repr

/-- RFC1918 private ranges: 10.0.0.0/8, 172.16.0.0/12, 192.168.0.0/16. -/
def isRFC1918 (ip : IPv4) : Bool :=
  ip.a == 10 || (ip.a == 172 && decide (16 ≤ ip.b) && decide (ip.b ≤ 31)) ||
    (ip.a == 192 && ip.b == 168)

/-- Link-local range 169.254.0.0/16 (home of the metadata endpoint). -/
def isLinkLocal (ip : IPv4) : Bool := ip.a == 169 && ip.b == 254

/-- The cloud metadata endpoint. -/
def metadataIP : IPv4 := ⟨169, 254, 169, 254⟩

/-- Modelled from the spec: the standing deny rule — RFC1918 and
link-local/metadata destinations are blocked independently of the allowlist
cache. -/
def alwaysBlocked (ip : IPv4) : Bool := isRFC1918 ip || isLinkLocal ip

/-- Modelled from the spec: §4.3 per-mode outbound-connection decision of the
missing network-policy engine.  Open allows everything; restricted is
default-allow minus the standing deny list; allowlist additionally requires
the destination to be a cached allowlist IP or a listed DNS resolver. -/
def connectionAllowed (m : NetMode) (allowCache dnsIPs : List IPv4) (dst : IPv4) : Bool :=
  match m with
  | .openNet => true
  | .restricted => !(alwaysBlocked dst)
  | .allowlist => !(alwaysBlocked dst) && (allowCache.contains dst || dnsIPs.contains dst)

/-! ### Host routes for overlay networks -/

/-- A host route: destination subnet and next-hop (via) address. -/
structure Route where
  subnet : String
  gw : String
deriving DecidableEq, Repr

/-- Modelled from the spec: host-route installation for overlay backends
(§4.3): install the route to the container's subnet via the network's uplink
address unless it is already present — exactly once per distinct subnet. -/
def ensureRoute (table : List Route) (subnet uplink : String) : List Route :=
  if table.contains ⟨subnet, uplink⟩ then table else table ++ [⟨subnet, uplink⟩]

/-- The network backend kinds the tests distinguish. -/
inductive Backend
  | bridge
  | ovn
deriving DecidableEq, Repr

/-- Modelled from the spec: container start touches the host routing table
only for overlay backends; bridge networks need no host route. -/
def startRouting (backend : Backend) (table : List Route) (subnet uplink : String) :
    List Route :=
  match backend with
  | .bridge => table
  | .ovn => ensureRoute table subnet uplink

/-! ### list --format=json -/

/-- A minimal JSON value. -/
inductive Json
  | str (s : String)
  | arr (xs : List Json)
  | obj (fields : List (String × Json))

/-- What list reports about one container: its name, whether it is running,
and its assigned address. -/
structure ContainerInfo where
  name : String
  isRunning : Bool
  addr : IPv4
deriving DecidableEq, Repr

/-- Dotted-quad rendering of an IPv4 address. -/
def dottedQuad (ip : IPv4) : String :=
  natToDec ip.a ++ "." ++ natToDec ip.b ++ "." ++ natToDec ip.c ++ "." ++ natToDec ip.d

/-- A string of dotted-quad shape. -/
def DottedQuad (s : String) : Prop :=
  ∃ w x y z : Nat,
    s = natToDec w ++ "." ++ natToDec x ++ "." ++ natToDec y ++ "." ++ natToDec z

/-- Modelled from the spec: the ipv4 field of list output — a running
container reports its dotted-quad address, a stopped one the empty string. -/
def ipv4Field (c : ContainerInfo) : String :=
  if c.isRunning then dottedQuad c.addr else ""

/-- JSON entry for one container. -/
def containerJson (c : ContainerInfo) : Json :=
  .obj [("name", .str c.name), ("ipv4", .str (ipv4Field c))]

/-- Modelled from the spec: list --format=json emits an object whose
active_containers key holds one entry per container. -/
def listJson (cs : List ContainerInfo) : Json :=
  .obj [("active_containers", .arr (cs.map containerJson))]

/-! ### Session end signals (§4.5) -/

/-- How an interactive session ends from the inside. -/
inductive EndReason
  | innerShellExit
  | powerOff
deriving DecidableEq, Repr

/-- Modelled from the spec: §4.5 — exiting the inner shell is a weaker
signal than power-off: the container is left running and the CLI reports it
kept running; only a power-off observed from inside triggers the Cleanup
Orchestrator. -/
def sessionEnd (reason : EndReason) (persistent : Bool) (mode : NetMode) (c : String)
    (st : DaemonState) : DaemonState × List Msg × Bool :=
  match reason with
  | .innerShellExit => (st, [.containerKeptRunning c], true)
  | .powerOff => cleanup persistent mode c st

end Coi

open Coi in
/-- C1: for every cleanup run in restricted or allowlist mode where container
deletion fails (the container is protected from deletion), the Cleanup
Orchestrator never attempts ACL deletion: no ACL-removal message and no
failed-to-delete-ACL warning is emitted, the run reports failure, and both
the container and its ACL still exist afterwards. -/
theorem cleanup_skips_acl_when_container_delete_fails
    (m : NetMode) (c : String) (st : DaemonState)
    (hm : m = .restricted ∨ m = .allowlist)
    (hprot : st.deleteProtected.contains c = true)
    (hc : c ∈ st.containers) (hacl : aclNameFor c m ∈ st.acls) :
    (cleanup false m c st).2.2 = false
    ∧ (∀ a, Msg.aclRemoved a ∉ (cleanup false m c st).2.1)
    ∧ (∀ a, Msg.aclDeleteWarning a ∉ (cleanup false m c st).2.1)
    ∧ c ∈ (cleanup false m c st).1.containers
    ∧ aclNameFor c m ∈ (cleanup false m c st).1.acls := by
  have hp : c ∈ st.deleteProtected := by simpa using hprot
  simp [cleanup, hp, hc, hacl]

open Coi in
/-- Witness for C1: a protected container in restricted mode keeps its ACL
through a failed cleanup. -/
theorem cleanup_skips_acl_when_container_delete_fails_witness :
    aclNameFor "c1" .restricted ∈
      (cleanup false .restricted "c1"
        ⟨["c1"], ["c1"], ["c1"], ["coi-c1-restricted"]⟩).1.acls :=
  (cleanup_skips_acl_when_container_delete_fails .restricted "c1"
    ⟨["c1"], ["c1"], ["c1"], ["coi-c1-restricted"]⟩
    (Or.inl rfl) (by decide) (by decide) (by decide)).2.2.2.2

open Coi in
/-- C2: for every cleanup run of an ephemeral session in restricted or
allowlist mode where container deletion succeeds, network-policy teardown
runs and the ACL named coi-container-mode no longer exists afterwards (and
its removal is reported, with no ACL warning). -/
theorem cleanup_deletes_acl_when_container_delete_succeeds
    (m : NetMode) (c : String) (st : DaemonState)
    (hm : m = .restricted ∨ m = .allowlist)
    (hc : st.containers.contains c = true)
    (hnp : st.deleteProtected.contains c = false)
    (hacl : aclNameFor c m ∈ st.acls) :
    (cleanup false m c st).2.2 = true
    ∧ c ∉ (cleanup false m c st).1.containers
    ∧ aclNameFor c m ∉ (cleanup false m c st).1.acls
    ∧ Msg.aclRemoved (aclNameFor c m) ∈ (cleanup false m c st).2.1
    ∧ (∀ a, Msg.aclDeleteWarning a ∉ (cleanup false m c st).2.1) := by
  have hmode : ¬(m = NetMode.openNet) := by rcases hm with h | h <;> simp [h]
  have h1 : c ∈ st.containers := by simpa using hc
  have h2 : c ∉ st.deleteProtected := by simpa using hnp
  simp [cleanup, h1, h2, hmode, deleteACL, hacl]

open Coi in
/-- Witness for C2: cleaning up an unprotected container in allowlist mode
removes its ACL. -/
theorem cleanup_deletes_acl_when_container_delete_succeeds_witness :
    aclNameFor "c1" .allowlist ∉
      (cleanup false .allowlist "c1"
        ⟨["c1"], ["c1"], [], ["coi-c1-allowlist"]⟩).1.acls :=
  (cleanup_deletes_acl_when_container_delete_succeeds .allowlist "c1"
    ⟨["c1"], ["c1"], [], ["coi-c1-allowlist"]⟩
    (Or.inr rfl) (by decide) (by decide) (by decide)).2.2.1

open Coi in
/-- C4: resuming a session whose stored persistent flag is set, with the
persistence flag omitted on the resuming invocation, inherits
persistent = true, and after the resumed session exits (cleanup runs with
the inherited flag) the container still exists. -/
theorem resume_inherits_persistent_flag
    (derive : String → Nat → String) (newId : String) (now : Nat)
    (store : Store) (st : DaemonState) (sid w : String) (s : Session) (m : NetMode)
    (slotArg : Option Nat)
    (hfind : findSession store sid = some s) (hpers : s.persistent = true) :
    ∃ sess stActual,
      start derive newId now
          ⟨w, slotArg, none, some (some sid), m⟩ store st =
        (.ok sess, { sessions := sess :: store.sessions.filter (fun t => t.sid != sess.sid) },
          stActual)
      ∧ sess.persistent = true
      ∧ sess.containerName ∈ stActual.containers
      ∧ sess.containerName ∈ (cleanup sess.persistent m sess.containerName stActual).1.containers := by
  refine ⟨{ s with persistent := resolvePersistent none (some s), containerName := derive w (match slotArg with | some n => n | none => s.slot), lastUsed := now }, ensureContainer st (derive w (match slotArg with | some n => n | none => s.slot)) m, ?_, ?_, ?_, ?_⟩
  · simp [start, hfind]
  · simp [resolvePersistent, hpers]
  · exact ensureContainer_mem _ _ _
  · simp only [resolvePersistent, hpers, cleanup_persistent_containers]
    exact ensureContainer_mem _ _ _

open Coi in
/-- Witness for C4 at a concrete store holding one persistent session. -/
theorem resume_inherits_persistent_flag_witness :
    ∃ sess stActual,
      start (fun _ n => "coi-aaaaaaaa-" ++ natToDec n) "id2" 5
          ⟨"/ws", none, none, some (some "id1"), NetMode.restricted⟩
          ⟨[⟨"id1", "/ws", 22, true, "coi-aaaaaaaa-22", 1, 1⟩]⟩
          ⟨[], [], [], []⟩ =
        (.ok sess,
          { sessions :=
              sess :: List.filter (fun t => t.sid != sess.sid)
                [⟨"id1", "/ws", 22, true, "coi-aaaaaaaa-22", 1, 1⟩] },
          stActual)
      ∧ sess.persistent = true
      ∧ sess.containerName ∈ stActual.containers
      ∧ sess.containerName ∈
          (cleanup sess.persistent NetMode.restricted sess.containerName stActual).1.containers :=
  resume_inherits_persistent_flag (fun _ n => "coi-aaaaaaaa-" ++ natToDec n) "id2" 5
    ⟨[⟨"id1", "/ws", 22, true, "coi-aaaaaaaa-22", 1, 1⟩]⟩ ⟨[], [], [], []⟩
    "id1" "/ws" ⟨"id1", "/ws", 22, true, "coi-aaaaaaaa-22", 1, 1⟩ NetMode.restricted none
    (by decide) rfl

open Coi in
/-- C5: a resume request that misses (no saved session for the workspace, or
an explicit id never saved) fails with noPreviousSession — whose message
says there is no previous session to resume — exits nonzero, and leaves the
container set unchanged. -/
theorem resume_miss_fails_without_container
    (derive : String → Nat → String) (newId : String) (now : Nat)
    (args : StartArgs) (store : Store) (st : DaemonState)
    (hmiss :
      (args.resumeArg = some none ∧ latestFor store args.workspace = none) ∨
      (∃ id, args.resumeArg = some (some id) ∧ findSession store id = none)) :
    start derive newId now args store st = (.error .noPreviousSession, store, st)
    ∧ exitCode (start derive newId now args store st).1 ≠ 0
    ∧ (start derive newId now args store st).2.2.containers = st.containers
    ∧ StartErr.message .noPreviousSession = "no previous session to resume" := by
  have hstart : start derive newId now args store st = (.error .noPreviousSession, store, st) := by
    rcases hmiss with ⟨h1, h2⟩ | ⟨id, h1, h2⟩ <;> simp [start, h1, h2]
  exact ⟨hstart, by simp [hstart, exitCode], by simp [hstart], rfl⟩

open Coi in
/-- Witness for C5: resuming an id that was never saved, against an empty
store, errors and creates nothing. -/
theorem resume_miss_fails_without_container_witness :
    start (fun _ _ => "cn") "id9" 3 ⟨"/ws", none, none, some (some "ghost"), NetMode.openNet⟩
        ⟨[]⟩ ⟨["other"], [], [], []⟩ =
      (.error .noPreviousSession, ⟨[]⟩, ⟨["other"], [], [], []⟩) :=
  (resume_miss_fails_without_container (fun _ _ => "cn") "id9" 3
    ⟨"/ws", none, none, some (some "ghost"), NetMode.openNet⟩ ⟨[]⟩ ⟨["other"], [], [], []⟩
    (Or.inr ⟨"ghost", rfl, by decide⟩)).1

open Coi in
/-- C3: for every workspace path and slot, the derived container name equals
prefix + first 8 hex characters of sha256(absolute workspace path) + "-" +
slot; the derivation is deterministic, and distinct slots on the same
workspace yield distinct names. -/
theorem container_name_shape_deterministic_slot_injective
    (env : String → Option String) (resolve : String → String)
    (w : String) (s1 s2 : Nat) :
    calculate_container_name env resolve w s1 =
      ((env "COI_CONTAINER_PREFIX").getD "coi-") ++ (sha256hex (resolve w)).take 8 ++ "-" ++
        natToDec s1
    ∧ (∀ w2 t, w2 = w → t = s1 →
        calculate_container_name env resolve w2 t = calculate_container_name env resolve w s1)
    ∧ (s1 ≠ s2 →
        calculate_container_name env resolve w s1 ≠ calculate_container_name env resolve w s2) := by
  refine ⟨rfl, ?_, ?_⟩
  · intro w2 t hw ht
    rw [hw, ht]
  · intro hne heq
    apply hne
    apply natToDec_injective
    exact string_append_cancel heq

open Coi in
/-- Witness for C3 at a concrete workspace and slots 1 and 2. -/
theorem container_name_shape_deterministic_slot_injective_witness :
    calculate_container_name (fun _ => none) id "/tmp/ws" 1 ≠
      calculate_container_name (fun _ => none) id "/tmp/ws" 2 :=
  (container_name_shape_deterministic_slot_injective (fun _ => none) id "/tmp/ws" 1 2).2.2
    (by decide)

open Coi in
/-- C6: in allowlist or restricted mode, destinations in the RFC1918 private
ranges and the link-local metadata address 169.254.169.254 are never
reachable, whatever the allowlist cache or DNS resolver list contain. -/
theorem private_and_metadata_always_blocked
    (m : NetMode) (dst : IPv4)
    (hm : m = .restricted ∨ m = .allowlist)
    (hdst : isRFC1918 dst = true ∨ dst = metadataIP) :
    ∀ allowCache dnsIPs : List IPv4, connectionAllowed m allowCache dnsIPs dst = false := by
  intro allowCache dnsIPs
  have hblocked : alwaysBlocked dst = true := by
    rcases hdst with h | h
    · simp [alwaysBlocked, h]
    · subst h; rfl
  rcases hm with h | h <;> subst h <;> simp [connectionAllowed, hblocked]

open Coi in
/-- Witness for C6: the metadata endpoint stays blocked in allowlist mode
even when the allowlist cache itself lists it. -/
theorem private_and_metadata_always_blocked_witness :
    connectionAllowed .allowlist [metadataIP, ⟨10, 0, 0, 1⟩] [⟨8, 8, 8, 8⟩] metadataIP = false :=
  private_and_metadata_always_blocked .allowlist metadataIP (Or.inr rfl) (Or.inr rfl)
    [metadataIP, ⟨10, 0, 0, 1⟩] [⟨8, 8, 8, 8⟩]

open Coi in
/-- C7: for overlay (OVN) backends, starting a container installs the route
to the container's subnet via the uplink address exactly once per distinct
subnet: the route exists after the first start, a second start on the same
subnet leaves the table unchanged, and no route via any other gateway (such
as the bridge gateway) is introduced. -/
theorem ovn_route_installed_once_per_subnet
    (table : List Route) (subnet uplink gwB : String)
    (hgw : gwB ≠ uplink) :
    (⟨subnet, uplink⟩ : Route) ∈ startRouting .ovn table subnet uplink
    ∧ startRouting .ovn (startRouting .ovn table subnet uplink) subnet uplink =
        startRouting .ovn table subnet uplink
    ∧ ((⟨subnet, gwB⟩ : Route) ∈ startRouting .ovn table subnet uplink →
        (⟨subnet, gwB⟩ : Route) ∈ table) := by
  refine ⟨?_, ?_, ?_⟩
  · simp only [startRouting, ensureRoute]
    split
    next h => simpa using h
    next h => simp
  · have hmem : (ensureRoute table subnet uplink).contains ⟨subnet, uplink⟩ = true := by
      simp only [ensureRoute]
      split
      next h => simpa using h
      next h => simp
    show ensureRoute (ensureRoute table subnet uplink) subnet uplink =
      ensureRoute table subnet uplink
    conv_lhs => rw [ensureRoute]
    rw [if_pos hmem]
  · intro hmem
    simp only [startRouting, ensureRoute] at hmem
    rcases hx : table.contains (⟨subnet, uplink⟩ : Route) with hfalse | htrue
    · rw [hx] at hmem
      simp only [if_neg Bool.false_ne_true] at hmem
      rcases List.mem_append.1 hmem with h | h
      · exact h
      · exfalso
        apply hgw
        have := List.mem_singleton.1 h
        exact congrArg Route.gw this
    · rw [hx] at hmem
      simpa using hmem

open Coi in
/-- Witness for C7 on an initially empty routing table. -/
theorem ovn_route_installed_once_per_subnet_witness :
    (⟨"10.100.0.0/24", "192.0.2.1"⟩ : Route) ∈
      startRouting .ovn [] "10.100.0.0/24" "192.0.2.1" ∧
    startRouting .ovn (startRouting .ovn [] "10.100.0.0/24" "192.0.2.1")
        "10.100.0.0/24" "192.0.2.1" =
      startRouting .ovn [] "10.100.0.0/24" "192.0.2.1" ∧
    ((⟨"10.100.0.0/24", "10.47.62.1"⟩ : Route) ∈
        startRouting .ovn [] "10.100.0.0/24" "192.0.2.1" →
      (⟨"10.100.0.0/24", "10.47.62.1"⟩ : Route) ∈ ([] : List Route)) :=
  ovn_route_installed_once_per_subnet [] "10.100.0.0/24" "192.0.2.1" "10.47.62.1" (by decide)

open Coi in
/-- C8: list --format=json always yields an object whose active_containers
key holds one entry per container, each with name and ipv4 fields; a running
container's ipv4 is a non-empty dotted-quad string, a stopped container's is
empty, and an empty environment yields an empty active_containers list. -/
theorem list_json_shape_and_ipv4
    (cs : List ContainerInfo) (c : ContainerInfo) :
    listJson cs = .obj [("active_containers", .arr (cs.map containerJson))]
    ∧ listJson [] = .obj [("active_containers", .arr [])]
    ∧ containerJson c = .obj [("name", .str c.name), ("ipv4", .str (ipv4Field c))]
    ∧ (c.isRunning = true → ipv4Field c ≠ "" ∧ DottedQuad (ipv4Field c))
    ∧ (c.isRunning = false → ipv4Field c = "") := by
  refine ⟨rfl, rfl, rfl, ?_, ?_⟩
  · intro hrun
    constructor
    · intro habs
      have hdata := congrArg String.data habs
      simp only [ipv4Field, hrun, if_pos, dottedQuad, String.data_append] at hdata
      simp [List.append_eq_nil] at hdata
    · exact ⟨c.addr.a, c.addr.b, c.addr.c, c.addr.d, by simp [ipv4Field, hrun, dottedQuad]⟩
  · intro hstop
    simp [ipv4Field, hstop]

open Coi in
/-- Witness for C8: one running and one stopped container. -/
theorem list_json_shape_and_ipv4_witness :
    ipv4Field ⟨"coi-abc-1", true, ⟨10, 230, 5, 7⟩⟩ ≠ "" ∧
    DottedQuad (ipv4Field ⟨"coi-abc-1", true, ⟨10, 230, 5, 7⟩⟩) :=
  (list_json_shape_and_ipv4 [⟨"coi-abc-1", true, ⟨10, 230, 5, 7⟩⟩]
    ⟨"coi-abc-1", true, ⟨10, 230, 5, 7⟩⟩).2.2.2.1 rfl

open Coi in
/-- C9: exiting the inner shell does not end the container — it stays
running and the output reports it kept running; a power-off in a persistent
session leaves the container stopped but existing (kept, not deleted). -/
theorem inner_exit_keeps_container_poweroff_keeps_persistent
    (m : NetMode) (c : String) (st : DaemonState)
    (hc : c ∈ st.containers) (hr : c ∈ st.running) :
    ((sessionEnd .innerShellExit false m c st).1 = st
      ∧ c ∈ (sessionEnd .innerShellExit false m c st).1.running
      ∧ Msg.containerKeptRunning c ∈ (sessionEnd .innerShellExit false m c st).2.1)
    ∧ (c ∈ (sessionEnd .powerOff true m c st).1.containers
      ∧ c ∉ (sessionEnd .powerOff true m c st).1.running
      ∧ Msg.containerKept ∈ (sessionEnd .powerOff true m c st).2.1) := by
  refine ⟨⟨rfl, hr, by simp [sessionEnd]⟩, ?_, ?_, ?_⟩
  · simpa [sessionEnd, cleanup_persistent_containers] using hc
  · simp [sessionEnd, cleanup]
  · simp [sessionEnd, cleanup]

open Coi in
/-- Witness for C9 with one existing, running container. -/
theorem inner_exit_keeps_container_poweroff_keeps_persistent_witness :
    Msg.containerKeptRunning "c1" ∈
      (sessionEnd .innerShellExit false .restricted "c1" ⟨["c1"], ["c1"], [], []⟩).2.1 ∧
    "c1" ∈ (sessionEnd .powerOff true .restricted "c1" ⟨["c1"], ["c1"], [], []⟩).1.containers :=
  ⟨(inner_exit_keeps_container_poweroff_keeps_persistent .restricted "c1"
      ⟨["c1"], ["c1"], [], []⟩ (by decide) (by decide)).1.2.2,
   (inner_exit_keeps_container_poweroff_keeps_persistent .restricted "c1"
      ⟨["c1"], ["c1"], [], []⟩ (by decide) (by decide)).2.1⟩

open Coi in
/-- C10: the derivation canonicalizes the workspace path before hashing, so
two spellings with the same resolved path give the same name for every slot;
the prefix comes from the `COI_CONTAINER_PREFIX` environment variable and
defaults to `"coi-"`. -/
theorem container_name_canonicalizes_path_and_default_pfx
    (env : String → Option String) (resolve : String → String)
    (p1 p2 : String) (s : Nat) (h : resolve p1 = resolve p2) :
    calculate_container_name env resolve p1 s = calculate_container_name env resolve p2 s
    ∧ calculate_container_name (fun _ => none) resolve p1 s =
        "coi-" ++ (sha256hex (resolve p1)).take 8 ++ "-" ++ natToDec s
    ∧ ∀ px, calculate_container_name
          (fun v => if v = "COI_CONTAINER_PREFIX" then some px else none) resolve p1 s =
        px ++ (sha256hex (resolve p1)).take 8 ++ "-" ++ natToDec s := by
  refine ⟨?_, rfl, fun px => by simp [calculate_container_name]⟩
  simp [calculate_container_name, h]

open Coi in
/-- Witness for C10: two spellings of the same directory (with and without a
trailing `/.` segment) resolve alike and give the same container name. -/
theorem container_name_canonicalizes_path_and_default_pfx_witness :
    calculate_container_name (fun _ => none)
        (fun p => if p = "/tmp/ws/." then "/tmp/ws" else p) "/tmp/ws/." 1 =
      calculate_container_name (fun _ => none)
        (fun p => if p = "/tmp/ws/." then "/tmp/ws" else p) "/tmp/ws" 1 :=
  (container_name_canonicalizes_path_and_default_pfx (fun _ => none)
    (fun p => if p = "/tmp/ws/." then "/tmp/ws" else p) "/tmp/ws/." "/tmp/ws" 1 (by decide)).1
